import Mathlib

/-!
Verification of the logical-restore job of the database-lab engine
(`pkg/retrieval/engine/postgres/logical/restore.go`).

The Go code is embedded shallowly: pure helpers become Lean functions on
`String` / `List Char`; the stateful `Run` / `restoreDB` / `markDatabase`
methods become functions that thread an explicit `RestoreJob` state and an
oracle environment supplying the results of every external call (filesystem,
Docker daemon, in-container command execution), and that emit a trace of
observable events.  Machine integers do not overflow in any of the embedded
code paths (`ParallelJobs` is only compared and printed), so Go `int` is
modelled by `Int`.
-/

namespace LogicalRestore

/-! ## Dump formats and database definitions -/

/-- Modelled from the spec: the dump format of one database
(`DBDefinition.Format` in the sources; the constants `customFormat`,
`directoryFormat`, `plainFormat` are declared in a file of the `logical`
package that is not under `src/`).  The spec fixes the three formats
custom, directory and plain. -/
inductive DumpFormat where
  | custom
  | directory
  | plain
  deriving DecidableEq, Repr

/-- Modelled from the spec: one database to be restored (`DBDefinition` in the
sources, declared outside the provided files): dump format, optional declared
table list, optional embedded database name (plain format only). -/
structure DBDefinition where
  Format : DumpFormat
  Tables : List String
  dbName : String
  deriving DecidableEq, Repr

/-! ## Constants of restore.go -/

/-- `RestoreJobType` of restore.go. -/
def RestoreJobType : String := "logicalRestore"

/-- `defaultParallelJobs` of restore.go: default number of parallel jobs. -/
def defaultParallelJobs : Int := 1

/-- `dumpMetafile` of restore.go: metafile name of a custom dump. -/
def dumpMetafile : String := "toc.dat"

/-- `prefixDBName` of restore.go. -/
def prefixDBName : String := "dbname:"

/-- `prefixConnectDB` of restore.go: prefix of a connection line in a plain dump. -/
def prefixConnectDB : String := "\\connect "

/-- `prefixCreateTable` of restore.go: prefix of a table-creation line. -/
def prefixCreateTable : String := "CREATE TABLE "

/-- Modelled from the spec: `defaults.DBName` of the `tools/defaults` package
(not under `src/`), the default database name; the spec scenarios show it as
`postgres`. -/
def defaultsDBName : String := "postgres"

/-- Modelled from the spec: `cont.DBLabControlLabel` (package not under
`src/`); the spec gives the label key `dblab_control`. -/
def DBLabControlLabel : String := "dblab_control"

/-- Modelled from the spec: `cont.DBLabRestoreLabel` (package not under
`src/`); the spec gives the label value `restore`. -/
def DBLabRestoreLabel : String := "restore"

/-- Modelled from the spec: `cont.DBLabInstanceIDLabel` (package not under
`src/`); the spec gives the label key `dblab_instance_id`. -/
def DBLabInstanceIDLabel : String := "dblab_instance_id"

/-! ## Go standard-library string helpers used by restore.go

All helpers work on the `List Char` view of strings, mirroring the byte-level
Go functions on ASCII data. -/

/-- Go `unicode.IsSpace` (the Unicode White_Space property), used by
`bytes.TrimSpace`. -/
def goIsSpace (c : Char) : Bool :=
  c = ' ' || c = '\t' || c = '\n' || c.toNat = 11 || c.toNat = 12 || c = '\r' ||
  c.toNat = 0x85 || c.toNat = 0xA0 || c.toNat = 0x1680 ||
  (0x2000 ≤ c.toNat && c.toNat ≤ 0x200A) || c.toNat = 0x2028 || c.toNat = 0x2029 ||
  c.toNat = 0x202F || c.toNat = 0x205F || c.toNat = 0x3000

/-- Go `bytes.TrimSpace`: drop leading and trailing white space. -/
def goTrimSpace (s : String) : String :=
  ⟨((s.data.dropWhile goIsSpace).reverse.dropWhile goIsSpace).reverse⟩

/-- Go `bytes.HasPrefix s p` / `strings.HasPrefix s p`. -/
def goHasPrefix (s p : String) : Bool :=
  p.data.isPrefixOf s.data

/-- Go `bytes.TrimPrefix s p`: drop `p` from the front of `s` when present. -/
def goTrimPrefix (s p : String) : String :=
  if goHasPrefix s p then ⟨s.data.drop p.data.length⟩ else s

/-- Go `strings.TrimSuffix` on the character-list view. -/
def goTrimSuffix (l sfx : List Char) : List Char :=
  if sfx.isSuffixOf l then l.take (l.length - sfx.length) else l

/-- Word characters of the Go regexp class backslash-w: `[0-9A-Za-z_]`. -/
def isWordChar (c : Char) : Bool :=
  c.isAlphanum || c = '_'

/-- `filenameFormatter.ReplaceAllString s "_"` of restore.go: every non-word
character becomes an underscore (each regexp match is a single character). -/
def replaceNonWordChars (l : List Char) : List Char :=
  l.map fun c => if isWordChar c then c else '_'

/-- Helper for `goExt`: scan forward keeping the latest candidate extension;
a path separator resets the candidate (Unix separator, as on the target
platform of the engine). -/
def goExtAux : List Char → List Char → List Char
  | cur, [] => cur
  | cur, c :: rest =>
    if c = '/' then goExtAux [] rest
    else if c = '.' then goExtAux (c :: rest) rest
    else goExtAux cur rest

/-- Go `filepath.Ext`: the suffix beginning at the final dot in the final
path element; empty when there is no dot. -/
def goExt (l : List Char) : List Char :=
  goExtAux [] l

/-- `formatDBName` of restore.go: strip the file extension, then replace every
non-word character with an underscore. -/
def formatDBName (fileName : String) : String :=
  ⟨replaceNonWordChars (goTrimSuffix fileName.data (goExt fileName.data))⟩

/-! ## Go `path.Clean` / `path.Join`, used by `getDumpLocation` -/

/-- Split a character list on the slash separator. -/
def splitSegs : List Char → List Char → List String
  | cur, [] => [⟨cur.reverse⟩]
  | cur, c :: rest =>
    if c = '/' then ⟨cur.reverse⟩ :: splitSegs [] rest
    else splitSegs (c :: cur) rest

/-- Segment processing of Go `path.Clean`: drop empty and dot segments,
let a dot-dot segment pop the previous segment (kept literally at the start
of a relative path, dropped at the root of an absolute one).  The first
argument is the processed stack in reverse order. -/
def cleanSegs (rooted : Bool) : List String → List String → List String
  | acc, [] => acc.reverse
  | acc, s :: rest =>
    if s = "" || s = "." then cleanSegs rooted acc rest
    else if s = ".." then
      match acc with
      | [] => if rooted then cleanSegs rooted [] rest else cleanSegs rooted [".."] rest
      | a :: tl =>
        if a = ".." then cleanSegs rooted (s :: a :: tl) rest
        else cleanSegs rooted tl rest
    else cleanSegs rooted (s :: acc) rest

/-- Go `path.Clean`. -/
def pathClean (p : String) : String :=
  if p = "" then "."
  else
    let rooted : Bool :=
      match p.data with
      | c :: _ => c = '/'
      | [] => false
    let segs := cleanSegs rooted [] (splitSegs [] p.data)
    let joined := String.intercalate "/" segs
    if rooted then "/" ++ joined
    else if joined = "" then "." else joined

/-- Go `path.Join` of two elements: join the non-empty elements with a slash
and clean the result; empty when both elements are empty. -/
def pathJoin (a b : String) : String :=
  if a = "" && b = "" then ""
  else if a = "" then pathClean b
  else if b = "" then pathClean a
  else pathClean (a ++ "/" ++ b)

/-! ## Configuration and job state -/

/-- Modelled from the spec: the database part of the global configuration
(`global.Config.Database`, not under `src/`); it supplies the default
database user and name via the `User()` and `Name()` accessors. -/
structure GlobalDatabase where
  user : String
  name : String
  deriving DecidableEq, Repr

/-- Modelled from the spec: the process-wide configuration (`global.Config`,
not under `src/`): instance ID plus the database identity. -/
structure GlobalConfig where
  InstanceID : String
  Database : GlobalDatabase
  deriving DecidableEq, Repr

/-- Broken-down time value produced by Go `time.Parse`; only the fields the
canonical `dataStateAt` layout carries. -/
structure GoTime where
  year : Nat
  month : Nat
  day : Nat
  hour : Nat
  minute : Nat
  second : Nat
  deriving DecidableEq, Repr

/-- Modelled from the spec: the storage-pool handle (`resources.Pool`, not
under `src/`): data-directory path (`DataDir()`), mount-root path
(`MountDir`) and the mutable `dataStateAt` set through `SetDSA`. -/
structure FSPool where
  dataDir : String
  mountDir : String
  dataStateAt : Option GoTime
  deriving DecidableEq, Repr

/-- Modelled from the spec: the persisted DBMark record (`dbmarker.Config`,
not under `src/`): `{dataType, dataStateAt}`. -/
structure DBMarkerConfig where
  DataType : String
  DataStateAt : String
  deriving DecidableEq, Repr

/-- Modelled from the spec: `dbmarker.LogicalDataType` (not under `src/`),
the data-type tag `"logical"` of a logical restore. -/
def LogicalDataType : String := "logical"

/-- `RestoreOptions` of restore.go: the YAML-shaped options of one logical
restore job.  The `ContainerConfig` opaque map is untouched by the embedded
code paths and is omitted. -/
structure RestoreOptions where
  DumpLocation : String
  DockerImage : String
  Databases : List (String × DBDefinition)
  ForceInit : Bool
  ParallelJobs : Int
  Configs : List (String × String)
  deriving DecidableEq, Repr

/-- `RestoreJob` of restore.go: the job state threaded through `Run`.  The Go
struct embeds `RestoreOptions`; here the embedded options live in the `opts`
field.  Docker client and marker handles are replaced by the oracle
environments of the trace model. -/
structure RestoreJob where
  name : String
  fsPool : FSPool
  globalCfg : GlobalConfig
  dbMark : DBMarkerConfig
  opts : RestoreOptions
  deriving DecidableEq, Repr

/-- `setDefaults` of restore.go: a zero `ParallelJobs` becomes
`defaultParallelJobs`.  It runs at job construction (`NewJob`) and at every
`Reload`. -/
def setDefaults (r : RestoreJob) : RestoreJob :=
  if r.opts.ParallelJobs = 0 then
    { r with opts := { r.opts with ParallelJobs := defaultParallelJobs } }
  else r

/-- `restoreContainerName` of restore.go: `restoreContainerPrefix`
(the literal `dblab_lr_`) followed by the instance ID. -/
def restoreContainerName (r : RestoreJob) : String :=
  "dblab_lr_" ++ r.globalCfg.InstanceID

/-! ## Dump inspection: parsePlainFile -/

/-- `parsePlainFile` of restore.go, over the scanned lines of the dump file:
return the trimmed suffix of the first line carrying the `connect` prefix
when that suffix is non-empty; stop without a name on a whitespace-only
suffix, on a `CREATE TABLE ` line, or at end of input (`errDBNameNotFound`,
modelled as `none`). -/
def parsePlainFile : List String → Option String
  | [] => none
  | line :: rest =>
    if goHasPrefix line prefixConnectDB then
      let nameCandidate := goTrimSpace (goTrimPrefix line prefixConnectDB)
      if nameCandidate.length > 0 then some nameCandidate else none
    else if goHasPrefix line prefixCreateTable then none
    else parsePlainFile rest

/-- Restatement of the spec's description of `parsePlainFile`: look at the
first line carrying either prefix; a `connect` line yields its trimmed
suffix when non-empty, anything else (including end of file) yields no
name. -/
def parsePlainFileSpec (lines : List String) : Option String :=
  match lines.find? (fun l => goHasPrefix l prefixConnectDB || goHasPrefix l prefixCreateTable) with
  | some l =>
    if goHasPrefix l prefixConnectDB then
      let trimmed := goTrimSpace (goTrimPrefix l prefixConnectDB)
      if trimmed ≠ "" then some trimmed else none
    else none
  | none => none

/-! ## Command builders -/

/-- `getDumpLocation` of restore.go: the dump location itself for the custom
format, `path.Join(dumpLocation, dbName)` otherwise. -/
def getDumpLocation (r : RestoreJob) (dumpFormat : DumpFormat) (dbName : String) : String :=
  match dumpFormat with
  | DumpFormat.custom => r.opts.DumpLocation
  | _ => pathJoin r.opts.DumpLocation dbName

/-- `buildPlainTextCommand` of restore.go.  The target database is the
default one; only when the dump carries no embedded name (the database was
just created by `prepareDB`) is it the name derived from the dump file
name. -/
def buildPlainTextCommand (r : RestoreJob) (dumpName : String) (definition : DBDefinition) : List String :=
  let dbName := defaultsDBName
  let dbName := if definition.dbName = "" then formatDBName dumpName else dbName
  ["psql", "--username", r.globalCfg.Database.user, "--dbname", dbName,
    "--file", getDumpLocation r definition.Format dumpName]

/-- `buildPGRestoreCommand` of restore.go. -/
def buildPGRestoreCommand (r : RestoreJob) (dumpName : String) (definition : DBDefinition) : List String :=
  let restoreCmd := ["pg_restore", "--username", r.globalCfg.Database.user,
    "--dbname", defaultsDBName, "--no-privileges", "--no-owner"]
  let restoreCmd := if dumpName ≠ defaultsDBName then restoreCmd ++ ["--create"] else restoreCmd
  let restoreCmd := if r.opts.ForceInit then restoreCmd ++ ["--clean", "--if-exists"] else restoreCmd
  let restoreCmd := restoreCmd ++ ["--jobs", toString r.opts.ParallelJobs]
  let restoreCmd := definition.Tables.foldl (fun acc t => acc ++ ["--table", t]) restoreCmd
  restoreCmd ++ [getDumpLocation r definition.Format dumpName]

/-- `buildLogicalRestoreCommand` of restore.go. -/
def buildLogicalRestoreCommand (r : RestoreJob) (dumpName : String) (definition : DBDefinition) : List String :=
  if definition.Format = DumpFormat.plain then buildPlainTextCommand r dumpName definition
  else buildPGRestoreCommand r dumpName definition

/-! ## Timestamp parsing and the pool update -/

/-- Numeric value of a list of decimal digit characters. -/
def natOfDigits (l : List Char) : Nat :=
  l.foldl (fun a c => a * 10 + (c.toNat - 48)) 0

/-- Gregorian leap year. -/
def isLeapYear (y : Nat) : Bool :=
  (y % 4 = 0 && y % 100 ≠ 0) || y % 400 = 0

/-- Number of days of a month. -/
def daysIn (y m : Nat) : Nat :=
  if m = 2 then (if isLeapYear y then 29 else 28)
  else if m = 4 ∨ m = 6 ∨ m = 9 ∨ m = 11 then 30
  else 31

/-- Modelled from the spec: Go `time.Parse` at the canonical timestamp layout
`util.DataStateAtFormat` (the `util` package is not under `src/`; the spec
calls it a fixed textual format).  The layout is the 14-digit
`yyyyMMddHHmmss` form; a string that is not exactly 14 digits, or whose
fields fall outside the calendar ranges, fails to parse. -/
def parseDataStateAt (s : String) : Option GoTime :=
  let l := s.data
  if l.length = 14 ∧ l.all Char.isDigit then
    let year := natOfDigits (l.take 4)
    let month := natOfDigits ((l.drop 4).take 2)
    let day := natOfDigits ((l.drop 6).take 2)
    let hour := natOfDigits ((l.drop 8).take 2)
    let minute := natOfDigits ((l.drop 10).take 2)
    let second := natOfDigits ((l.drop 12).take 2)
    if 1 ≤ month ∧ month ≤ 12 ∧ 1 ≤ day ∧ day ≤ daysIn year month ∧
        hour ≤ 23 ∧ minute ≤ 59 ∧ second ≤ 59 then
      some { year := year, month := month, day := day,
             hour := hour, minute := minute, second := second }
    else none
  else none

/-- `updateDataStateAt` of restore.go: parse the stored `dbMark.DataStateAt`;
on success push the parsed time into the pool (`fsPool.SetDSA`), on failure
log and leave the job untouched. -/
def updateDataStateAt (r : RestoreJob) : RestoreJob :=
  match parseDataStateAt r.dbMark.DataStateAt with
  | none => r
  | some t => { r with fsPool := { r.fsPool with dataStateAt := some t } }

/-! ## Trace model of the stateful methods

External interactions (filesystem checks, Docker calls, in-container command
execution, DBMarker persistence) are oracles supplied by an environment
record; the functions return the emitted event trace, the updated job state
and the Go error result. -/

/-- Observable events of one job run. -/
inductive Event where
  | pullImage
  | containerCreate
  | containerStart
  | prepareDB (dbName : String)
  | execRestore (cmd : List String)
  | markInvoke (dumpLocation : String)
  | saveMark (mark : DBMarkerConfig)
  | execAnalyze
  deriving DecidableEq, Repr

/-- Oracle results for one `restoreDB` call: the `prepareDB` execution, the
restore command execution, `retrieveDataStateAt`, and the two DBMarker
operations. -/
structure RestoreDBEnv where
  prepareResult : Except String Unit
  execResult : Except String Unit
  retrieveResult : Except String String
  createConfigResult : Except String Unit
  saveConfigResult : Except String Unit
  deriving Repr

/-- `markDatabase` of restore.go: a failed `retrieveDataStateAt` is only
logged (the empty string comes back with the error); a non-empty extracted
value overwrites `dbMark.DataStateAt`; the mark is then persisted
(`CreateConfig` / `SaveConfig`) and the pool timestamp refreshed. -/
def markDatabase (r : RestoreJob) (env : RestoreDBEnv) : List Event × RestoreJob × Except String Unit :=
  let dataStateAt :=
    match env.retrieveResult with
    | Except.ok s => s
    | Except.error _ => ""
  let r1 := if dataStateAt ≠ "" then { r with dbMark := { r.dbMark with DataStateAt := dataStateAt } } else r
  match env.createConfigResult with
  | Except.error e => ([], r1, Except.error ("failed to create a DBMarker config of the database: " ++ e))
  | Except.ok _ =>
    match env.saveConfigResult with
    | Except.error e => ([], r1, Except.error ("failed to mark the database: " ++ e))
    | Except.ok _ => ([Event.saveMark r1.dbMark], updateDataStateAt r1, Except.ok ())

/-- Tail of `restoreDB` after the optional preparation step: build and run
the restore command; for a plain dump return without marking, otherwise call
`markDatabase`. -/
def restoreDBAfterPrep (r : RestoreJob) (env : RestoreDBEnv) (dbName : String)
    (dbDefinition : DBDefinition) (pre : List Event) : List Event × RestoreJob × Except String Unit :=
  let restoreCommand := buildLogicalRestoreCommand r dbName dbDefinition
  let events := pre ++ [Event.execRestore restoreCommand]
  match env.execResult with
  | Except.error e => (events, r, Except.error ("failed to exec restore command: " ++ e))
  | Except.ok _ =>
    let dumpLocation := getDumpLocation r dbDefinition.Format dbName
    if dbDefinition.Format = DumpFormat.plain then (events, r, Except.ok ())
    else
      let res := markDatabase r env
      (events ++ Event.markInvoke dumpLocation :: res.1, res.2.1, res.2.2)

/-- `restoreDB` of restore.go: create the database first only for a plain
dump without an embedded name, then run the restore command and mark the
database (non-plain formats only). -/
def restoreDB (r : RestoreJob) (env : RestoreDBEnv) (dbName : String)
    (dbDefinition : DBDefinition) : List Event × RestoreJob × Except String Unit :=
  if dbDefinition.Format = DumpFormat.plain ∧ dbDefinition.dbName = "" then
    match env.prepareResult with
    | Except.error e =>
      ([Event.prepareDB dbName], r,
        Except.error ("failed to prepare database for dump: " ++ dbName ++ ": " ++ e))
    | Except.ok _ => restoreDBAfterPrep r env dbName dbDefinition [Event.prepareDB dbName]
  else restoreDBAfterPrep r env dbName dbDefinition []

/-- The per-database loop of `Run`: restore each discovered database in
order, stopping at the first failure with the wrapping of restore.go. -/
def restoreAll : RestoreJob → List (String × DBDefinition × RestoreDBEnv) →
    List Event × RestoreJob × Except String Unit
  | r, [] => ([], r, Except.ok ())
  | r, (dbName, dbDef, denv) :: rest =>
    match restoreDB r denv dbName dbDef with
    | (evs, r1, Except.error e) => (evs, r1, Except.error ("failed to restore a database: " ++ e))
    | (evs, r1, Except.ok _) =>
      let res := restoreAll r1 rest
      (evs ++ res.1, res.2.1, res.2.2)

/-- Outcome of the container readiness check: healthy, a health-check error
(first-time restore, triggers `setupPGData`), or any other error. -/
inductive ReadinessResult where
  | ok
  | healthCheckError
  | otherError (e : String)
  deriving Repr

/-- Oracle results for one `Run` call. -/
structure RunEnv where
  isEmptyDirResult : Except String Bool
  pullResult : Except String Unit
  hostConfigResult : Except String Unit
  passwordResult : Except String String
  createResult : Except String Unit
  startResult : Except String Unit
  readiness : ReadinessResult
  setupPGDataResult : Except String Unit
  updateConfigsResult : Except String Unit
  dbListResult : Except String (List (String × DBDefinition × RestoreDBEnv))
  analyzeResult : Except String Unit
  stopResult : Except String Unit
  deriving Repr

/-- The part of `Run` from the configuration update to the end: apply config
overrides when declared, discover the database list, run the restore loop,
recalculate statistics and stop Postgres. -/
def runRestorePhase (r : RestoreJob) (env : RunEnv) : List Event × RestoreJob × Except String Unit :=
  match (if r.opts.Configs ≠ [] then env.updateConfigsResult else Except.ok ()) with
  | Except.error e => ([], r, Except.error ("failed to update configs: " ++ e))
  | Except.ok _ =>
    match env.dbListResult with
    | Except.error e => ([], r, Except.error e)
    | Except.ok dbList =>
      match restoreAll r dbList with
      | (evs, r1, Except.error e) => (evs, r1, Except.error e)
      | (evs, r1, Except.ok _) =>
        match env.analyzeResult with
        | Except.error e =>
          (evs ++ [Event.execAnalyze], r1,
            Except.error ("failed to recalculate statistics after restore: " ++ e))
        | Except.ok _ =>
          match env.stopResult with
          | Except.error e =>
            (evs ++ [Event.execAnalyze], r1, Except.error ("failed to stop Postgres instance: " ++ e))
          | Except.ok _ => (evs ++ [Event.execAnalyze], r1, Except.ok ())

/-- The part of `Run` after a successful container start: readiness check
(with the `setupPGData` branch on a health-check error), then the restore
phase. -/
def runAfterStart (r : RestoreJob) (env : RunEnv) : List Event × RestoreJob × Except String Unit :=
  match env.readiness with
  | ReadinessResult.otherError e => ([], r, Except.error ("failed to readiness check: " ++ e))
  | ReadinessResult.healthCheckError =>
    match env.setupPGDataResult with
    | Except.error e => ([], r, Except.error ("failed to set up Postgres data: " ++ e))
    | Except.ok _ => runRestorePhase r env
  | ReadinessResult.ok => runRestorePhase r env

/-- `Run` of restore.go: precondition check on the data directory, image
pull, container configuration, creation and start, readiness, restore loop,
analyze and shutdown.  Every step short-circuits with the wrapped error of
the source. -/
def Run (r : RestoreJob) (env : RunEnv) : List Event × RestoreJob × Except String Unit :=
  match env.isEmptyDirResult with
  | Except.error e =>
    ([], r, Except.error ("failed to explore the data directory \"" ++ r.fsPool.dataDir ++ "\": " ++ e))
  | Except.ok isEmpty =>
    if !isEmpty && !r.opts.ForceInit then
      ([], r,
        Except.error ("the data directory \"" ++ r.fsPool.dataDir ++
          "\" is not empty. Use \x27forceInit\x27 or empty the data directory"))
    else
      match env.pullResult with
      | Except.error e => ([Event.pullImage], r, Except.error ("failed to scan image pulling response: " ++ e))
      | Except.ok _ =>
        match env.hostConfigResult with
        | Except.error e => ([Event.pullImage], r, Except.error ("failed to build container host config: " ++ e))
        | Except.ok _ =>
          match env.passwordResult with
          | Except.error e => ([Event.pullImage], r, Except.error ("failed to generate PostgreSQL password: " ++ e))
          | Except.ok _ =>
            match env.createResult with
            | Except.error e =>
              ([Event.pullImage, Event.containerCreate], r,
                Except.error ("failed to create container \"" ++ restoreContainerName r ++ "\": " ++ e))
            | Except.ok _ =>
              match env.startResult with
              | Except.error e =>
                ([Event.pullImage, Event.containerCreate, Event.containerStart], r,
                  Except.error ("failed to start container \"" ++ restoreContainerName r ++ "\": " ++ e))
              | Except.ok _ =>
                let res := runAfterStart r env
                ([Event.pullImage, Event.containerCreate, Event.containerStart] ++ res.1,
                  res.2.1, res.2.2)

/-! ## Container configuration -/

/-- The part of the Docker `container.Config` record that
`buildContainerConfig` fills in (the health-check value comes from an
external package and is not modelled). -/
structure ContainerConfig where
  Labels : List (String × String)
  Env : List String
  Image : String
  deriving DecidableEq, Repr

/-- `buildContainerConfig` of restore.go: instance labels, the inherited host
environment extended with `PGDATA` and the generated password, and the
configured image. -/
def buildContainerConfig (r : RestoreJob) (osEnviron : List String) (password : String) : ContainerConfig :=
  { Labels := [(DBLabControlLabel, DBLabRestoreLabel),
               (DBLabInstanceIDLabel, r.globalCfg.InstanceID)]
    Env := osEnviron ++ ["PGDATA=" ++ r.fsPool.dataDir, "POSTGRES_PASSWORD=" ++ password]
    Image := r.opts.DockerImage }

/-! ## Event predicates -/

/-- Whether a trace contains a `prepareDB` (create-database) step. -/
def hasPrepare (evs : List Event) : Bool :=
  evs.any fun e =>
    match e with
    | Event.prepareDB _ => true
    | _ => false

/-- Whether a trace contains a `markDatabase` invocation. -/
def hasMarkInvoke (evs : List Event) : Bool :=
  evs.any fun e =>
    match e with
    | Event.markInvoke _ => true
    | _ => false

/-- Whether a trace contains a persisted DBMark. -/
def hasSaveMark (evs : List Event) : Bool :=
  evs.any fun e =>
    match e with
    | Event.saveMark _ => true
    | _ => false

/-- The `dataStateAt` values of the DBMarks persisted in a trace, in order. -/
def savedMarks (evs : List Event) : List String :=
  evs.filterMap fun e =>
    match e with
    | Event.saveMark m => some m.DataStateAt
    | _ => none

/-! ## Concrete fixtures for witnesses and counterexamples -/

/-- Global configuration of the spec scenarios: user and default database
`postgres`. -/
def sampleGlobal : GlobalConfig :=
  { InstanceID := "inst1", Database := { user := "postgres", name := "postgres" } }

/-- Restore options of the spec scenarios: dump location `/dump`. -/
def sampleOptions : RestoreOptions :=
  { DumpLocation := "/dump", DockerImage := "postgres:13", Databases := [],
    ForceInit := false, ParallelJobs := 1, Configs := [] }

/-- A pool with an empty `dataStateAt`. -/
def samplePool : FSPool :=
  { dataDir := "/var/lib/dblab/data", mountDir := "/var/lib/dblab", dataStateAt := none }

/-- A freshly constructed restore job over the sample configuration. -/
def sampleJob : RestoreJob :=
  { name := "restore-job", fsPool := samplePool, globalCfg := sampleGlobal,
    dbMark := { DataType := LogicalDataType, DataStateAt := "" }, opts := sampleOptions }

/-- A custom-format database definition without declared tables. -/
def sampleCustomDef : DBDefinition :=
  { Format := DumpFormat.custom, Tables := [], dbName := "" }

/-- The sample job reconfigured with `parallelJobs = -1`. -/
def sampleJobNegJobs : RestoreJob :=
  { sampleJob with opts := { sampleOptions with ParallelJobs := -1 } }

/-- The sample job reconfigured with `parallelJobs = 0`. -/
def sampleJobZeroJobs : RestoreJob :=
  { sampleJob with opts := { sampleOptions with ParallelJobs := 0 } }

/-- A per-database oracle environment in which every external call
succeeds and the timestamp extraction yields `20210101120000`. -/
def sampleEnvOk : RestoreDBEnv :=
  { prepareResult := Except.ok (), execResult := Except.ok (),
    retrieveResult := Except.ok "20210101120000",
    createConfigResult := Except.ok (), saveConfigResult := Except.ok () }

/-- A per-database oracle environment in which the timestamp extraction
fails and everything else succeeds. -/
def sampleEnvRetrieveFail : RestoreDBEnv :=
  { prepareResult := Except.ok (), execResult := Except.ok (),
    retrieveResult := Except.error "exit status 1",
    createConfigResult := Except.ok (), saveConfigResult := Except.ok () }

/-! ## Helper lemmas -/

theorem append_ite (c : Prop) [Decidable c] (l x : List String) :
    (if c then l ++ x else l) = l ++ (if c then x else []) := by
  by_cases h : c <;> simp [h]

theorem foldl_table (tables : List String) (acc : List String) :
    tables.foldl (fun a t => a ++ ["--table", t]) acc =
      acc ++ tables.flatMap fun t => ["--table", t] := by
  induction tables generalizing acc with
  | nil => simp
  | cons t ts ih => simp [ih, List.append_assoc]

/-- The full shape of `buildPGRestoreCommand`, with every optional segment in
place. -/
theorem buildPGRestoreCommand_eq (r : RestoreJob) (dumpName : String) (definition : DBDefinition) :
    buildPGRestoreCommand r dumpName definition =
      ["pg_restore", "--username", r.globalCfg.Database.user, "--dbname", defaultsDBName,
        "--no-privileges", "--no-owner"]
      ++ ((if dumpName ≠ defaultsDBName then ["--create"] else [])
      ++ ((if r.opts.ForceInit then ["--clean", "--if-exists"] else [])
      ++ (["--jobs", toString r.opts.ParallelJobs]
      ++ ((definition.Tables.flatMap fun t => ["--table", t])
      ++ [getDumpLocation r definition.Format dumpName])))) := by
  by_cases h1 : dumpName ≠ defaultsDBName <;> by_cases h2 : r.opts.ForceInit <;>
    simp [buildPGRestoreCommand, foldl_table, h1, h2]

/-- `updateDataStateAt` never touches the persisted mark record. -/
theorem updateDataStateAt_dbMark (r : RestoreJob) :
    (updateDataStateAt r).dbMark = r.dbMark := by
  unfold updateDataStateAt
  cases h : parseDataStateAt r.dbMark.DataStateAt <;> simp [h]

theorem string_pos_length_iff (s : String) : 0 < s.length ↔ s ≠ "" := by
  rw [String.length, List.length_pos]
  constructor
  · intro h hs
    subst hs
    exact h rfl
  · intro h hd
    exact h (String.ext (hd.trans rfl))

/-- Every character of a `replaceNonWordChars` result is a word character. -/
theorem isWordChar_of_mem_replace {c : Char} {l : List Char}
    (h : c ∈ replaceNonWordChars l) : isWordChar c = true := by
  simp only [replaceNonWordChars, List.mem_map] at h
  obtain ⟨a, _, ha⟩ := h
  by_cases hw : isWordChar a = true
  · rw [if_pos hw] at ha
    exact ha ▸ hw
  · rw [if_neg hw] at ha
    exact ha ▸ (by decide)

/-- The extension scan ignores a list free of dots and slashes. -/
theorem goExtAux_of_word (cur : List Char) (l : List Char)
    (h : ∀ c ∈ l, isWordChar c = true) : goExtAux cur l = cur := by
  induction l generalizing cur with
  | nil => rfl
  | cons c cs ih =>
    have hc := h c (List.mem_cons_self c cs)
    have h1 : ¬(c = '/') := fun e => by rw [e] at hc; exact absurd hc (by decide)
    have h2 : ¬(c = '.') := fun e => by rw [e] at hc; exact absurd hc (by decide)
    rw [goExtAux, if_neg h1, if_neg h2]
    exact ih cur fun a ha => h a (List.mem_cons_of_mem c ha)

/-- Replacement is the identity on a list of word characters. -/
theorem replaceNonWordChars_of_word (l : List Char)
    (h : ∀ c ∈ l, isWordChar c = true) : replaceNonWordChars l = l := by
  induction l with
  | nil => rfl
  | cons c cs ih =>
    have hc := h c (List.mem_cons_self c cs)
    simp only [replaceNonWordChars, List.map_cons, if_pos hc]
    rw [List.cons_eq_cons]
    exact ⟨rfl, ih fun a ha => h a (List.mem_cons_of_mem c ha)⟩

/-- Dropping the empty extension is the identity. -/
theorem goTrimSuffix_nil (l : List Char) : goTrimSuffix l [] = l := by
  simp [goTrimSuffix, List.isSuffixOf, List.isPrefixOf]

/-! ## Claims -/

/-- C9: `formatDBName` is idempotent: stripping the extension and replacing
every non-word character with an underscore, applied to its own output,
returns that output unchanged. -/
theorem formatDBName_idempotent (s : String) :
    formatDBName (formatDBName s) = formatDBName s := by
  have hword : ∀ c ∈ replaceNonWordChars (goTrimSuffix s.data (goExt s.data)),
      isWordChar c = true := fun _ hc => isWordChar_of_mem_replace hc
  show formatDBName ⟨replaceNonWordChars (goTrimSuffix s.data (goExt s.data))⟩ =
    (⟨replaceNonWordChars (goTrimSuffix s.data (goExt s.data))⟩ : String)
  unfold formatDBName
  rw [show (⟨replaceNonWordChars (goTrimSuffix s.data (goExt s.data))⟩ : String).data =
    replaceNonWordChars (goTrimSuffix s.data (goExt s.data)) from rfl]
  rw [show goExt (replaceNonWordChars (goTrimSuffix s.data (goExt s.data))) = [] from
    goExtAux_of_word [] _ hword]
  rw [goTrimSuffix_nil, replaceNonWordChars_of_word _ hword]

/-- C6: `parsePlainFile` returns the trimmed suffix of the first line with
the `connect` prefix when that suffix is non-empty, and no embedded name
when that suffix is whitespace-only, when a `CREATE TABLE ` line comes
first, or when neither prefix occurs: it agrees with the spec-shaped
first-match description. -/
theorem parsePlainFile_eq_spec (lines : List String) :
    parsePlainFile lines = parsePlainFileSpec lines := by
  induction lines with
  | nil => rfl
  | cons line rest ih =>
    by_cases h1 : goHasPrefix line prefixConnectDB
    · by_cases ht : goTrimSpace (goTrimPrefix line prefixConnectDB) = ""
      · simp [parsePlainFile, parsePlainFileSpec, List.find?_cons, h1, ht]
      · have hpos : 0 < (goTrimSpace (goTrimPrefix line prefixConnectDB)).length :=
          (string_pos_length_iff _).mpr ht
        simp [parsePlainFile, parsePlainFileSpec, List.find?_cons, h1, ht, hpos]
    · by_cases h2 : goHasPrefix line prefixCreateTable
      · simp [parsePlainFile, parsePlainFileSpec, List.find?_cons, h1, h2]
      · rw [parsePlainFile, if_neg (by simp [h1]), if_neg (by simp [h2]), ih]
        simp [parsePlainFileSpec, List.find?_cons, h1, h2]

/-- C8: the restore container is named exactly `dblab_lr_<instanceID>`, its
labels are `dblab_control = "restore"` and `dblab_instance_id =
<instanceID>`, and the built configuration's `Env` is the host environment
extended with `PGDATA=<dataDir>` and the freshly generated
`POSTGRES_PASSWORD`. -/
theorem container_config_shape (r : RestoreJob) (password : String) (osEnviron : List String) :
    restoreContainerName r = "dblab_lr_" ++ r.globalCfg.InstanceID ∧
    (buildContainerConfig r osEnviron password).Labels =
      [("dblab_control", "restore"), ("dblab_instance_id", r.globalCfg.InstanceID)] ∧
    (buildContainerConfig r osEnviron password).Env =
      osEnviron ++ ["PGDATA=" ++ r.fsPool.dataDir, "POSTGRES_PASSWORD=" ++ password] :=
  ⟨rfl, rfl, rfl⟩

/-- C7: when the stored `dbMark.DataStateAt` does not parse in the canonical
timestamp format, `updateDataStateAt` leaves the job (and hence the pool
`dataStateAt`) unchanged; the pool timestamp is set exactly to the parsed
value on a successful parse. -/
theorem updateDataStateAt_parse (r : RestoreJob) :
    (parseDataStateAt r.dbMark.DataStateAt = none → updateDataStateAt r = r) ∧
    ∀ t, parseDataStateAt r.dbMark.DataStateAt = some t →
      (updateDataStateAt r).fsPool.dataStateAt = some t := by
  constructor
  · intro h
    simp [updateDataStateAt, h]
  · intro t h
    simp [updateDataStateAt, h]

/-- A job whose stored mark carries an unparsable timestamp. -/
def sampleJobBadTS : RestoreJob :=
  { sampleJob with dbMark := { DataType := LogicalDataType, DataStateAt := "not-a-timestamp" } }

/-- Witness for C7: an unparsable stored timestamp leaves the job unchanged. -/
theorem updateDataStateAt_parse_witness :
    parseDataStateAt sampleJobBadTS.dbMark.DataStateAt = none ∧
    updateDataStateAt sampleJobBadTS = sampleJobBadTS :=
  ⟨by decide, (updateDataStateAt_parse sampleJobBadTS).1 (by decide)⟩

/-- C3: for custom- and directory-format definitions `buildPGRestoreCommand`
is exactly the fixed pg_restore prelude, then `--create` iff the unit name
differs from the default database name, then `--clean --if-exists` iff
force-init, then `--jobs <ParallelJobs>`, then one `--table T` per declared
table in order, and finally the dump path: the dump location itself for the
custom format and the location joined with the unit name for the directory
format. -/
theorem pg_restore_command_shape (r : RestoreJob) (dumpName : String) (definition : DBDefinition)
    (hfmt : definition.Format = DumpFormat.custom ∨ definition.Format = DumpFormat.directory) :
    buildPGRestoreCommand r dumpName definition =
      ["pg_restore", "--username", r.globalCfg.Database.user, "--dbname", defaultsDBName,
        "--no-privileges", "--no-owner"]
      ++ ((if dumpName ≠ defaultsDBName then ["--create"] else [])
      ++ ((if r.opts.ForceInit then ["--clean", "--if-exists"] else [])
      ++ (["--jobs", toString r.opts.ParallelJobs]
      ++ ((definition.Tables.flatMap fun t => ["--table", t])
      ++ [if definition.Format = DumpFormat.custom then r.opts.DumpLocation
          else pathJoin r.opts.DumpLocation dumpName])))) := by
  rw [buildPGRestoreCommand_eq]
  rcases hfmt with h | h <;> rw [h] <;> rfl

/-- Witness for C3: scenario 1 of the spec, a custom dump of unit `acme`
restored with the default options. -/
theorem pg_restore_command_shape_witness :
    (sampleCustomDef.Format = DumpFormat.custom ∨ sampleCustomDef.Format = DumpFormat.directory) ∧
    buildPGRestoreCommand sampleJob "acme" sampleCustomDef =
      ["pg_restore", "--username", sampleJob.globalCfg.Database.user, "--dbname", defaultsDBName,
        "--no-privileges", "--no-owner"]
      ++ ((if "acme" ≠ defaultsDBName then ["--create"] else [])
      ++ ((if sampleJob.opts.ForceInit then ["--clean", "--if-exists"] else [])
      ++ (["--jobs", toString sampleJob.opts.ParallelJobs]
      ++ ((sampleCustomDef.Tables.flatMap fun t => ["--table", t])
      ++ [if sampleCustomDef.Format = DumpFormat.custom then sampleJob.opts.DumpLocation
          else pathJoin sampleJob.opts.DumpLocation "acme"])))) :=
  ⟨Or.inl rfl, pg_restore_command_shape sampleJob "acme" sampleCustomDef (Or.inl rfl)⟩

/-- The command of the spec scenario evaluates to the expected argv. -/
theorem pg_restore_command_sample_eval :
    buildPGRestoreCommand sampleJob "acme" sampleCustomDef =
      ["pg_restore", "--username", "postgres", "--dbname", "postgres", "--no-privileges",
        "--no-owner", "--create", "--jobs", "1", "/dump"] := by
  decide

/-- A plain-format definition with the embedded database name `payments`. -/
def samplePlainPayments : DBDefinition :=
  { Format := DumpFormat.plain, Tables := [], dbName := "payments" }

/-- C1 fails as stated: for the plain dump `/dump/backup.sql` with embedded
name `payments`, the built command is not
`psql --username postgres --dbname payments --file /dump/backup.sql` —
the code targets the default database, not the embedded name. -/
theorem plain_command_counterexample :
    buildPlainTextCommand sampleJob "backup.sql" samplePlainPayments ≠
      ["psql", "--username", "postgres", "--dbname", "payments", "--file", "/dump/backup.sql"] ∧
    buildPlainTextCommand sampleJob "backup.sql" samplePlainPayments =
      ["psql", "--username", "postgres", "--dbname", "postgres", "--file", "/dump/backup.sql"] := by
  constructor
  · decide
  · decide

/-- C1 (amended): for a plain-format dump with a non-empty embedded database
name, the restore command is `psql --username <user> --dbname <default>
--file <dump-path>` — the `--dbname` argument is the default database name
(the dump's own connect line performs the switch), and no create-database
preparation step runs. -/
theorem plain_command_embedded_name (r : RestoreJob) (env : RestoreDBEnv) (dumpName : String)
    (definition : DBDefinition) (hfmt : definition.Format = DumpFormat.plain)
    (hname : definition.dbName ≠ "") :
    buildPlainTextCommand r dumpName definition =
      ["psql", "--username", r.globalCfg.Database.user, "--dbname", defaultsDBName,
        "--file", pathJoin r.opts.DumpLocation dumpName] ∧
    hasPrepare (restoreDB r env dumpName definition).1 = false := by
  constructor
  · simp [buildPlainTextCommand, hname, getDumpLocation, hfmt]
  · have hno : ¬(definition.Format = DumpFormat.plain ∧ definition.dbName = "") :=
      fun h => hname h.2
    rw [restoreDB, if_neg hno]
    cases hx : env.execResult <;>
      simp [restoreDBAfterPrep, hasPrepare, hfmt, hx]

/-- Witness for C1 (amended): the `payments` scenario of the spec produces
the psql command against the default database and no preparation event. -/
theorem plain_command_embedded_name_witness :
    samplePlainPayments.Format = DumpFormat.plain ∧ samplePlainPayments.dbName ≠ "" ∧
    (buildPlainTextCommand sampleJob "backup.sql" samplePlainPayments =
      ["psql", "--username", sampleJob.globalCfg.Database.user, "--dbname", defaultsDBName,
        "--file", pathJoin sampleJob.opts.DumpLocation "backup.sql"] ∧
    hasPrepare (restoreDB sampleJob sampleEnvOk "backup.sql" samplePlainPayments).1 = false) :=
  ⟨rfl, by decide,
    plain_command_embedded_name sampleJob sampleEnvOk "backup.sql" samplePlainPayments rfl (by decide)⟩

/-- C2 fails as stated: a job reloaded with `parallelJobs = -1` keeps the
negative value through `setDefaults`, and the `--jobs` argument of the built
pg_restore command is `-1`, not `1`. -/
theorem parallel_jobs_counterexample :
    (setDefaults sampleJobNegJobs).opts.ParallelJobs = -1 ∧
    buildPGRestoreCommand (setDefaults sampleJobNegJobs) "db" sampleCustomDef =
      ["pg_restore", "--username", "postgres", "--dbname", "postgres", "--no-privileges",
        "--no-owner", "--create", "--jobs", "-1", "/dump"] ∧
    ¬ buildPGRestoreCommand (setDefaults sampleJobNegJobs) "db" sampleCustomDef =
      ["pg_restore", "--username", "postgres", "--dbname", "postgres", "--no-privileges",
        "--no-owner", "--create", "--jobs", "1", "/dump"] := by
  refine ⟨by decide, by decide, by decide⟩

/-- C2 (amended): `setDefaults` turns a zero `parallelJobs` into 1, so the
`--jobs` argument of every pg_restore command built after construction or
reload with an unspecified or zero value is `1`; negative configured values
are passed through unchanged. -/
theorem parallel_jobs_default (r : RestoreJob) (h : r.opts.ParallelJobs = 0) :
    (setDefaults r).opts.ParallelJobs = 1 ∧
    ∀ dumpName definition,
      buildPGRestoreCommand (setDefaults r) dumpName definition =
        ["pg_restore", "--username", r.globalCfg.Database.user, "--dbname", defaultsDBName,
          "--no-privileges", "--no-owner"]
        ++ ((if dumpName ≠ defaultsDBName then ["--create"] else [])
        ++ ((if r.opts.ForceInit then ["--clean", "--if-exists"] else [])
        ++ (["--jobs", "1"]
        ++ ((definition.Tables.flatMap fun t => ["--table", t])
        ++ [getDumpLocation (setDefaults r) definition.Format dumpName])))) := by
  have h1 : (setDefaults r).opts.ParallelJobs = 1 := by
    simp [setDefaults, h, defaultParallelJobs]
  have h2 : (setDefaults r).globalCfg = r.globalCfg := by
    simp [setDefaults, h]
  have h3 : (setDefaults r).opts.ForceInit = r.opts.ForceInit := by
    simp [setDefaults, h]
  refine ⟨h1, fun dumpName definition => ?_⟩
  rw [buildPGRestoreCommand_eq, h1, h2, h3]
  rfl

/-- A run-level oracle environment in which the data-directory check reports
a non-empty directory and everything else would succeed. -/
def sampleRunEnvNonEmpty : RunEnv :=
  { isEmptyDirResult := Except.ok false, pullResult := Except.ok (),
    hostConfigResult := Except.ok (), passwordResult := Except.ok "secret",
    createResult := Except.ok (), startResult := Except.ok (),
    readiness := ReadinessResult.ok, setupPGDataResult := Except.ok (),
    updateConfigsResult := Except.ok (), dbListResult := Except.ok [],
    analyzeResult := Except.ok (), stopResult := Except.ok () }

/-- C4: with a non-empty data directory and force-init disabled, `Run` fails
with the data-directory-not-empty error and its trace carries neither the
image pull nor the container-create call: no restore container ever exists
for that job. -/
theorem run_nonempty_dir_fails_early (r : RestoreJob) (env : RunEnv)
    (hdir : env.isEmptyDirResult = Except.ok false)
    (hforce : r.opts.ForceInit = false) :
    (Run r env).2.2 =
      Except.error ("the data directory \"" ++ r.fsPool.dataDir ++
        "\" is not empty. Use \x27forceInit\x27 or empty the data directory") ∧
    Event.pullImage ∉ (Run r env).1 ∧
    Event.containerCreate ∉ (Run r env).1 := by
  simp [Run, hdir, hforce]

/-- Witness for C4: the sample job over a non-empty data directory. -/
theorem run_nonempty_dir_fails_early_witness :
    sampleRunEnvNonEmpty.isEmptyDirResult = Except.ok false ∧
    sampleJob.opts.ForceInit = false ∧
    ((Run sampleJob sampleRunEnvNonEmpty).2.2 =
      Except.error ("the data directory \"" ++ sampleJob.fsPool.dataDir ++
        "\" is not empty. Use \x27forceInit\x27 or empty the data directory") ∧
    Event.pullImage ∉ (Run sampleJob sampleRunEnvNonEmpty).1 ∧
    Event.containerCreate ∉ (Run sampleJob sampleRunEnvNonEmpty).1) :=
  ⟨rfl, rfl, run_nonempty_dir_fails_early sampleJob sampleRunEnvNonEmpty rfl rfl⟩

/-- C5: in a `restoreDB` call, `markDatabase` is invoked exactly when the
exec of the restore command succeeded and the format is not plain, and a
DBMark can be persisted only in that case. -/
theorem mark_iff_exec_success (r : RestoreJob) (env : RestoreDBEnv) (dbName : String)
    (definition : DBDefinition) :
    (hasMarkInvoke (restoreDB r env dbName definition).1 = true ↔
      (env.execResult = Except.ok () ∧ definition.Format ≠ DumpFormat.plain)) ∧
    (hasSaveMark (restoreDB r env dbName definition).1 = true →
      env.execResult = Except.ok () ∧ definition.Format ≠ DumpFormat.plain) := by
  by_cases hp : definition.Format = DumpFormat.plain ∧ definition.dbName = ""
  · rw [restoreDB, if_pos hp]
    cases hx : env.prepareResult with
    | error e => simp [hasMarkInvoke, hasSaveMark, hp.1]
    | ok _ =>
      cases hx2 : env.execResult <;>
        simp [restoreDBAfterPrep, hasMarkInvoke, hasSaveMark, hp.1, hx2]
  · rw [restoreDB, if_neg hp]
    cases hx2 : env.execResult with
    | error e => simp [restoreDBAfterPrep, hasMarkInvoke, hasSaveMark, hx2]
    | ok u =>
      cases u
      by_cases hf : definition.Format = DumpFormat.plain
      · simp [restoreDBAfterPrep, hasMarkInvoke, hasSaveMark, hf, hx2]
      · refine ⟨⟨fun _ => ⟨rfl, hf⟩, fun _ => ?_⟩, fun _ => ⟨rfl, hf⟩⟩
        simp [restoreDBAfterPrep, hasMarkInvoke, hf, hx2]

/-- Witness for C5: a successful custom-format restore invokes the marker. -/
theorem mark_iff_exec_success_witness :
    hasMarkInvoke (restoreDB sampleJob sampleEnvOk "acme" sampleCustomDef).1 = true :=
  (mark_iff_exec_success sampleJob sampleEnvOk "acme" sampleCustomDef).1.mpr
    ⟨rfl, by decide⟩

/-- C10: `markDatabase` persists a DBMark even when the `dataStateAt`
extraction fails, and because the job's single `dbMark` record is shared
across the per-database loop, the mark persisted for the second database of
a run carries the timestamp extracted for the first one. -/
theorem stale_mark_carryover (r : RestoreJob)
    (n1 n2 : String) (d1 d2 : DBDefinition) (e1 e2 : RestoreDBEnv)
    (ts msg : String)
    (hf1 : d1.Format ≠ DumpFormat.plain) (hf2 : d2.Format ≠ DumpFormat.plain)
    (hx1 : e1.execResult = Except.ok ()) (hx2 : e2.execResult = Except.ok ())
    (hr1 : e1.retrieveResult = Except.ok ts) (hts : ts ≠ "")
    (hr2 : e2.retrieveResult = Except.error msg)
    (hc1 : e1.createConfigResult = Except.ok ()) (hs1 : e1.saveConfigResult = Except.ok ())
    (hc2 : e2.createConfigResult = Except.ok ()) (hs2 : e2.saveConfigResult = Except.ok ()) :
    savedMarks (restoreAll r [(n1, d1, e1), (n2, d2, e2)]).1 = [ts, ts] := by
  have hp1 : ¬(d1.Format = DumpFormat.plain ∧ d1.dbName = "") := fun h => hf1 h.1
  have hp2 : ¬(d2.Format = DumpFormat.plain ∧ d2.dbName = "") := fun h => hf2 h.1
  simp [restoreAll, restoreDB, restoreDBAfterPrep, markDatabase, savedMarks, hp1, hp2,
    hf1, hf2, hx1, hx2, hr1, hr2, hc1, hs1, hc2, hs2, hts, updateDataStateAt_dbMark]

/-- Witness for C10: a two-database run in which the second extraction
fails persists the first timestamp twice. -/
theorem stale_mark_carryover_witness :
    sampleEnvRetrieveFail.retrieveResult = Except.error "exit status 1" ∧
    savedMarks (restoreAll sampleJob
      [("db1", sampleCustomDef, sampleEnvOk), ("db2", sampleCustomDef, sampleEnvRetrieveFail)]).1 =
      ["20210101120000", "20210101120000"] :=
  ⟨rfl, stale_mark_carryover sampleJob "db1" "db2" sampleCustomDef sampleCustomDef
    sampleEnvOk sampleEnvRetrieveFail "20210101120000" "exit status 1"
    (by decide) (by decide) rfl rfl rfl (by decide) rfl rfl rfl rfl rfl⟩

/-- Witness for C2 (amended): a job with `parallelJobs = 0` gets a literal
`--jobs 1`. -/
theorem parallel_jobs_default_witness :
    sampleJobZeroJobs.opts.ParallelJobs = 0 ∧
    (setDefaults sampleJobZeroJobs).opts.ParallelJobs = 1 ∧
    buildPGRestoreCommand (setDefaults sampleJobZeroJobs) "db" sampleCustomDef =
      ["pg_restore", "--username", sampleJobZeroJobs.globalCfg.Database.user, "--dbname",
        defaultsDBName, "--no-privileges", "--no-owner"]
      ++ ((if ("db" : String) ≠ defaultsDBName then ["--create"] else [])
      ++ ((if sampleJobZeroJobs.opts.ForceInit then ["--clean", "--if-exists"] else [])
      ++ (["--jobs", "1"]
      ++ ((sampleCustomDef.Tables.flatMap fun t => ["--table", t])
      ++ [getDumpLocation (setDefaults sampleJobZeroJobs) sampleCustomDef.Format "db"])))) :=
  ⟨rfl, (parallel_jobs_default sampleJobZeroJobs rfl).1,
    (parallel_jobs_default sampleJobZeroJobs rfl).2 "db" sampleCustomDef⟩

end LogicalRestore
